import Mathlib

/-!
Verification of the SIMBS waiver-checker reconciliation engine
(`src/main.py`).  The engine is a pure per-registrant scan:
`process_waiver_data` walks each registrant's waiver-search result,
collects the waiver dates, decides whether any waiver is current
relative to the event end date, extracts the last email field seen,
and asserts that this email matches the registrant's ticketing email.
`report_to_console` and `prepare_data_for_reporting` are the reporting
stage.

Modelling conventions:
* Python `datetime` values are modelled as `Int` timestamps (seconds),
  all in a single time frame; `datetime.fromtimestamp` is the identity
  on that representation and `timedelta(days=d)` is `d * 86400` seconds.
* Python dict access `d['k']` on a key that may be absent is modelled
  with `Option`; accessing an absent key raises `KeyError`, and a failed
  `assert` raises `AssertionError`, both modelled with `Except PyError`.
* `str.lower` is modelled by `pyLower`, which lowercases a string
  character by character (the inputs are ASCII emails, where this
  agrees with Python's `str.lower`).
-/

/-- Python `str.lower`, modelled as a character-by-character lowercase
map (equivalent on the ASCII strings this program compares). -/
def pyLower (s : String) : String := String.mk (s.data.map Char.toLower)

/-- Errors a run of `process_waiver_data` can raise: a dict lookup on an
absent key (`KeyError`) or a failed `assert` (`AssertionError` with the
message built by the source). -/
inductive PyError where
  | keyError (key : String)
  | assertionError (msg : String)
deriving DecidableEq, Repr

/-- `WAIVER_VALIDITY = 365`, the waiver validity period in days
(src/main.py line 25). -/
def WAIVER_VALIDITY : Int := 365

/-- Seconds per day, the unit conversion inside Python's
`timedelta(days=...)`. -/
def secondsPerDay : Int := 86400

/-- `timedelta(days=d)` as a number of seconds. -/
def timedelta_days (d : Int) : Int := d * secondsPerDay

/-- `datetime.fromtimestamp`: on the `Int`-timestamp representation of
datetimes this is the identity (src/main.py line 112). -/
def datetime_fromtimestamp (t : Int) : Int := t

/-- A registrant record from the ticketing system: the namedtuple
`Registrant(email, first_name, last_name)` (src/main.py lines 29-34). -/
structure Registrant where
  email : String
  first_name : String
  last_name : String
deriving DecidableEq, Repr

/-- One typed field of a waiver, an element of `waiver['data']`:
`{'type': ..., 'value': ...}` (src/main.py lines 116-118). -/
structure WaiverField where
  type : String
  value : String
deriving DecidableEq, Repr

/-- One raw waiver from the waiver-search result: a `received_at` unix
timestamp and a list of typed fields (src/main.py lines 110-118). -/
structure Waiver where
  received_at : Int
  data : List WaiverField
deriving DecidableEq, Repr

/-- The `'data'` object of a waiver-search response.  Its `'waivers'`
key is `Option`-valued: `none` models the key being absent from the
JSON, in which case the lookup on src/main.py line 110 raises
`KeyError`. -/
structure WFData where
  waivers : Option (List Waiver)
deriving DecidableEq, Repr

/-- A waiver-search response: `{'data': {'waivers': [...]}}`. -/
structure WFResponse where
  data : WFData
deriving DecidableEq, Repr

/-- One element of `registration_data`: the dict
`{'eventbrite_data': reg, 'waiverforever_data': json_data}` built by
`waiverforever_api_request` (src/main.py line 95). -/
structure RegEntry where
  eventbrite_data : Registrant
  waiverforever_data : WFResponse
deriving DecidableEq, Repr

/-- The output unit of the reconciliation engine: the dict appended to
`processed_data` (src/main.py lines 122-129). -/
structure ReconciledRegistrant where
  wf_email : String
  eb_email : String
  eb_first_name : String
  eb_last_name : String
  dates : List Int
  is_current : Bool
deriving DecidableEq, Repr

/-- The three per-registrant loop variables of `process_waiver_data`
(src/main.py lines 107-109). -/
structure ScanState where
  dates : List Int
  is_current : Bool
  waiverforever_email : String
deriving DecidableEq, Repr

/-- The inner field loop body (src/main.py lines 116-118): an
`email_field` entry overwrites the running email, anything else leaves
it unchanged. -/
def scanFieldsStep (e : String) (f : WaiverField) : String :=
  if f.type = "email_field" then f.value else e

/-- The outer waiver loop body (src/main.py lines 110-118): append the
waiver date, set `is_current` when the waiver is still valid at
`end_date`, and scan the waiver's fields for an email field. -/
def scanWaiver (end_date : Int) (st : ScanState) (w : Waiver) : ScanState :=
  let waiver_date := datetime_fromtimestamp w.received_at
  { dates := st.dates ++ [waiver_date]
    is_current :=
      if waiver_date + timedelta_days WAIVER_VALIDITY > end_date then true
      else st.is_current
    waiverforever_email := w.data.foldl scanFieldsStep st.waiverforever_email }

/-- Processing of one registrant entry (the body of the outer `for reg`
loop, src/main.py lines 107-129): look up the waiver list (raising
`KeyError` if the `'waivers'` key is absent), fold the waiver scan over
it from the initial state, run the email-integrity `assert`, and build
the output record. -/
def processRegistration (end_date : Int) (reg : RegEntry) :
    Except PyError ReconciledRegistrant :=
  match reg.waiverforever_data.data.waivers with
  | none => .error (.keyError "waivers")
  | some ws =>
    let st := ws.foldl (scanWaiver end_date)
      { dates := [], is_current := false, waiverforever_email := "" }
    if st.waiverforever_email = "" ∨
        pyLower st.waiverforever_email = pyLower reg.eventbrite_data.email then
      .ok { wf_email := st.waiverforever_email
            eb_email := reg.eventbrite_data.email
            eb_first_name := reg.eventbrite_data.first_name
            eb_last_name := reg.eventbrite_data.last_name
            dates := st.dates
            is_current := st.is_current }
    else
      .error (.assertionError
        ("found a non-matching email field. WF: " ++ st.waiverforever_email ++
         " EB: " ++ reg.eventbrite_data.email))

/-- `process_waiver_data(registration_data, end_date)`
(src/main.py lines 100-131): process the registrants in order; the
first raised exception aborts the run, so no later registrant is
processed after a failure. -/
def process_waiver_data (registration_data : List RegEntry) (end_date : Int) :
    Except PyError (List ReconciledRegistrant) :=
  match registration_data with
  | [] => .ok []
  | reg :: rest =>
    match processRegistration end_date reg with
    | .error e => .error e
    | .ok r =>
      match process_waiver_data rest end_date with
      | .error e => .error e
      | .ok rs => .ok (r :: rs)

/-- Whether a single waiver is current at `end_date`: the condition of
the `if` on src/main.py line 114. -/
def isCurrentWaiver (end_date : Int) (w : Waiver) : Bool :=
  decide (datetime_fromtimestamp w.received_at +
    timedelta_days WAIVER_VALIDITY > end_date)

/-- All values of `email_field`-typed fields across a waiver list, in
scan order: the candidates through which the engine's "last one wins"
email extraction runs. -/
def allEmailValues (ws : List Waiver) : List String :=
  ws.flatMap fun w => (w.data.filter fun f => f.type = "email_field").map WaiverField.value

/-- Python left-justified string formatting `f"{s:<w}"`: pad `s` on the
right with spaces to minimum width `w`; longer strings are left
unchanged. -/
def pyFormatLeft (s : String) (w : Nat) : String :=
  s ++ String.mk (List.replicate (w - s.length) ' ')

/-- An item as consumed by the reporting stage, generic in the type of
the entries of its `dates` list (datetimes before the formatting pass,
strings after it).  The `dates` key is `Option`-valued because
`prepare_data_for_reporting` accesses it with `item.get('dates')`,
which tolerates an absent key. -/
structure ReportItem (α : Type) where
  wf_email : String
  eb_email : String
  eb_first_name : String
  eb_last_name : String
  dates : Option (List α)
  is_current : Bool
deriving DecidableEq, Repr

/-- A date entry after the reporting stage may be either the original
datetime (untouched item) or a formatted string. -/
inductive DateVal where
  | dt (t : Int)
  | str (s : String)
deriving DecidableEq, Repr

/-- Copy every field of a report item except `dates`, which is
replaced. -/
def ReportItem.withDates (item : ReportItem α) (ds : Option (List β)) :
    ReportItem β :=
  { wf_email := item.wf_email
    eb_email := item.eb_email
    eb_first_name := item.eb_first_name
    eb_last_name := item.eb_last_name
    dates := ds
    is_current := item.is_current }

/-- Days-to-civil-date conversion on the proleptic Gregorian calendar
(the calendar arithmetic behind `datetime`): maps a day count since
1970-01-01 to `(year, month, day)`. -/
def civilFromDays (days : Int) : Int × Int × Int :=
  let z := days + 719468
  let era := z.fdiv 146097
  let doe := z - era * 146097
  let yoe := (doe - doe.fdiv 1460 + doe.fdiv 36524 - doe.fdiv 146096).fdiv 365
  let doy := doe - (365 * yoe + yoe.fdiv 4 - yoe.fdiv 100)
  let mp := (5 * doy + 2).fdiv 153
  let d := doy - (153 * mp + 2).fdiv 5 + 1
  let m := mp + (if mp < 10 then 3 else -9)
  let y := yoe + era * 400 + (if m ≤ 2 then 1 else 0)
  (y, m, d)

/-- `date.strftime('%-m/%-d/%Y')` (src/main.py line 148): month/day
without zero padding, then the year, separated by slashes, computed on
the calendar fields of the modelled datetime. -/
def strftime_mdY (t : Int) : String :=
  let ymd := civilFromDays (t.fdiv secondsPerDay)
  toString ymd.2.1 ++ "/" ++ toString ymd.2.2 ++ "/" ++ toString ymd.1

/-- The per-item body of `prepare_data_for_reporting` (src/main.py
lines 146-148): when `item.get('dates')` is truthy (present and
non-empty) replace every date by its formatted string; a falsy value
(absent key, or empty list) leaves the item untouched.  The untouched
branches re-embed the original datetimes via `DateVal.dt`. -/
def reformatItem (item : ReportItem Int) : ReportItem DateVal :=
  match item.dates with
  | some ds =>
    if ds.isEmpty then item.withDates (some (ds.map DateVal.dt))
    else item.withDates (some (ds.map fun d => DateVal.str (strftime_mdY d)))
  | none => item.withDates (none : Option (List DateVal))

/-- `prepare_data_for_reporting(data)` (src/main.py lines 145-149): the
in-place date-formatting pass over the whole list, modelled
functionally; the Python function returns the same (mutated) list. -/
def prepare_data_for_reporting (data : List (ReportItem Int)) :
    List (ReportItem DateVal) :=
  data.map reformatItem

/-- The row printed for one invalid-or-missing-waiver item
(src/main.py line 142). -/
def reportRow (item : ReportItem α) : String :=
  pyFormatLeft item.eb_email 30 ++ " " ++
  pyFormatLeft item.eb_first_name 15 ++ " " ++
  pyFormatLeft item.eb_last_name 15

/-- `report_to_console(data)` (src/main.py lines 133-142), modelled as
the list of strings passed to `print`, in order: the count of items
without a current waiver (`sum(1 for item in data if not
item.get('is_current'))`), the two header lines, then one row per item
whose `is_current` is falsy, in list order. -/
def report_to_console (data : List (ReportItem α)) : List String :=
  let waiver_invalid_count :=
    data.foldl (fun acc item => if !item.is_current then acc + 1 else acc) 0
  ["\nFound " ++ toString waiver_invalid_count ++
     " invalid or missing waivers out of " ++ toString data.length ++ " waivers.",
   "Invalid or missing waivers:",
   pyFormatLeft "Email" 30 ++ " " ++ pyFormatLeft "Firstname" 15 ++ " " ++
     pyFormatLeft "Lastname" 15] ++
  data.foldl (fun acc item =>
    if !item.is_current then acc ++ [reportRow item] else acc) []

/-- Concrete test registrant used by witnesses: ticketing email in mixed
case, so the case-insensitive comparison is exercised. -/
def aliceReg : Registrant :=
  { email := "Alice@x.com", first_name := "Alice", last_name := "A" }

/-- A registration-data entry for `aliceReg` with the given (possibly
absent) waiver list. -/
def mkEntry (ws : Option (List Waiver)) : RegEntry :=
  { eventbrite_data := aliceReg
    waiverforever_data := { data := { waivers := ws } } }

/-- An email field matching `aliceReg` up to case. -/
def emailFieldAlice : WaiverField := { type := "email_field", value := "alice@x.com" }

/-- An email field not matching `aliceReg`. -/
def emailFieldBob : WaiverField := { type := "email_field", value := "bob@x.com" }

/-- A waiver received at time 0, current at end date 1000, carrying
Alice's email. -/
def waiverRecent : Waiver := { received_at := 0, data := [emailFieldAlice] }

/-- A waiver received far in the past (expired at end date 1000), with
no fields. -/
def waiverOld : Waiver := { received_at := -40000000, data := [] }

/-- A waiver received at time 0 carrying Bob's (mismatched) email. -/
def waiverBob : Waiver := { received_at := 0, data := [emailFieldBob] }

theorem getLastD_append_eq {α : Type} (l1 l2 : List α) (e : α) :
    (l1 ++ l2).getLastD e = l2.getLastD (l1.getLastD e) := by
  induction l1 generalizing e with
  | nil => rfl
  | cons a l ih =>
    rw [List.cons_append, List.getLastD_cons, List.getLastD_cons, ih]

theorem foldl_scanFieldsStep (fs : List WaiverField) (e : String) :
    fs.foldl scanFieldsStep e =
      ((fs.filter fun f => f.type = "email_field").map WaiverField.value).getLastD e := by
  induction fs generalizing e with
  | nil => rfl
  | cons f fs ih =>
    rw [List.foldl_cons, List.filter_cons, scanFieldsStep]
    by_cases h : f.type = "email_field"
    · rw [if_pos h, if_pos (decide_eq_true h), List.map_cons, List.getLastD_cons, ih]
    · rw [if_neg h, if_neg (by simpa using h), ih]

theorem foldl_scanWaiver_spec (d : Int) (ws : List Waiver) (st : ScanState) :
    ws.foldl (scanWaiver d) st =
      { dates := st.dates ++ ws.map fun w => datetime_fromtimestamp w.received_at
        is_current := st.is_current || ws.any (isCurrentWaiver d)
        waiverforever_email := (allEmailValues ws).getLastD st.waiverforever_email } := by
  induction ws generalizing st with
  | nil =>
    cases st
    rw [List.foldl_nil, List.map_nil, List.append_nil, List.any_nil, Bool.or_false]
    rfl
  | cons w ws ih =>
    rw [List.foldl_cons, ih]
    simp only [scanWaiver, allEmailValues, List.flatMap_cons, List.map_cons,
      List.any_cons, getLastD_append_eq, foldl_scanFieldsStep, List.append_assoc,
      List.singleton_append, ScanState.mk.injEq]
    refine ⟨trivial, ?_, trivial⟩
    by_cases h : datetime_fromtimestamp w.received_at +
        timedelta_days WAIVER_VALIDITY > d
    · simp [h, isCurrentWaiver]
    · simp [h, isCurrentWaiver]

theorem processRegistration_eq (d : Int) (reg : RegEntry) (ws : List Waiver)
    (hw : reg.waiverforever_data.data.waivers = some ws) :
    processRegistration d reg =
      if (allEmailValues ws).getLastD "" = "" ∨
          pyLower ((allEmailValues ws).getLastD "") =
            pyLower reg.eventbrite_data.email then
        .ok { wf_email := (allEmailValues ws).getLastD ""
              eb_email := reg.eventbrite_data.email
              eb_first_name := reg.eventbrite_data.first_name
              eb_last_name := reg.eventbrite_data.last_name
              dates := ws.map fun w => datetime_fromtimestamp w.received_at
              is_current := ws.any (isCurrentWaiver d) }
      else
        .error (.assertionError
          ("found a non-matching email field. WF: " ++ (allEmailValues ws).getLastD "" ++
           " EB: " ++ reg.eventbrite_data.email)) := by
  unfold processRegistration
  rw [hw]
  simp only [foldl_scanWaiver_spec, List.nil_append, Bool.false_or]

theorem process_waiver_data_cons_ok (reg : RegEntry) (rest : List RegEntry)
    (d : Int) (r : ReconciledRegistrant) (rs : List ReconciledRegistrant)
    (h1 : processRegistration d reg = .ok r)
    (h2 : process_waiver_data rest d = .ok rs) :
    process_waiver_data (reg :: rest) d = .ok (r :: rs) := by
  rw [process_waiver_data, h1, h2]

theorem process_waiver_data_cons_error (reg : RegEntry) (rest : List RegEntry)
    (d : Int) (e : PyError) (h : processRegistration d reg = .error e) :
    process_waiver_data (reg :: rest) d = .error e := by
  rw [process_waiver_data, h]

theorem process_waiver_data_nth (regs : List RegEntry) (d : Int)
    (out : List ReconciledRegistrant) (h : process_waiver_data regs d = .ok out) :
    out.length = regs.length ∧
    ∀ i : Nat, ∀ reg : RegEntry, regs[i]? = some reg →
      ∃ r : ReconciledRegistrant, out[i]? = some r ∧
        processRegistration d reg = .ok r := by
  induction regs generalizing out with
  | nil =>
    rw [process_waiver_data] at h
    cases h
    exact ⟨rfl, by intro i reg hir; simp at hir⟩
  | cons reg rest ih =>
    rw [process_waiver_data] at h
    cases hr : processRegistration d reg with
    | error e => rw [hr] at h; cases h
    | ok r =>
      rw [hr] at h
      cases hrest : process_waiver_data rest d with
      | error e => rw [hrest] at h; cases h
      | ok rs =>
        rw [hrest] at h
        cases h
        obtain ⟨hlen, hnth⟩ := ih rs hrest
        refine ⟨by simp [hlen], ?_⟩
        intro i reg2 hir
        cases i with
        | zero =>
          simp only [List.getElem?_cons_zero, Option.some.injEq] at hir
          exact ⟨r, by simp, by rw [← hir]; exact hr⟩
        | succ n =>
          simp only [List.getElem?_cons_succ] at hir ⊢
          exact hnth n reg2 hir

theorem process_waiver_data_mem (regs : List RegEntry) (d : Int)
    (out : List ReconciledRegistrant) (h : process_waiver_data regs d = .ok out) :
    ∀ r ∈ out, ∃ reg ∈ regs, processRegistration d reg = .ok r := by
  induction regs generalizing out with
  | nil => rw [process_waiver_data] at h; cases h; intro r hr; cases hr
  | cons reg rest ih =>
    rw [process_waiver_data] at h
    cases hr : processRegistration d reg with
    | error e => rw [hr] at h; cases h
    | ok r =>
      rw [hr] at h
      cases hrest : process_waiver_data rest d with
      | error e => rw [hrest] at h; cases h
      | ok rs =>
        rw [hrest] at h
        cases h
        intro r2 hr2
        cases hr2 with
        | head => exact ⟨reg, List.mem_cons_self reg rest, hr⟩
        | tail _ hmem =>
          obtain ⟨reg2, hreg2, hok⟩ := ih rs hrest r2 hmem
          exact ⟨reg2, List.mem_cons_of_mem reg hreg2, hok⟩

/-- C1: for every pair (registrant, waiver search result) and every
cutoff date, the reconciliation output has `is_current = true` whenever
the search result contains at least one waiver whose received-at date
plus 365 days is strictly after the cutoff date, regardless of the
other waivers' currency. -/
theorem C1_is_current_if_any_valid_waiver (d : Int) (regs : List RegEntry)
    (out : List ReconciledRegistrant) (i : Nat) (reg : RegEntry)
    (r : ReconciledRegistrant) (ws : List Waiver) (w : Waiver)
    (hok : process_waiver_data regs d = .ok out)
    (hreg : regs[i]? = some reg)
    (hout : out[i]? = some r)
    (hw : reg.waiverforever_data.data.waivers = some ws)
    (hmem : w ∈ ws)
    (hcur : datetime_fromtimestamp w.received_at +
      timedelta_days WAIVER_VALIDITY > d) :
    r.is_current = true := by
  obtain ⟨-, hnth⟩ := process_waiver_data_nth regs d out hok
  obtain ⟨r2, hout2, hpr⟩ := hnth i reg hreg
  rw [hout] at hout2
  injection hout2 with heq
  subst heq
  rw [processRegistration_eq d reg ws hw] at hpr
  split at hpr
  · injection hpr with heq2
    rw [← heq2]
    exact List.any_eq_true.mpr ⟨w, hmem, by simp [isCurrentWaiver, hcur]⟩
  · cases hpr

/-- C1 witness: a registrant with one expired and one current waiver is
reconciled with `is_current = true`. -/
theorem C1_witness :
    process_waiver_data [mkEntry (some [waiverOld, waiverRecent])] 1000 =
      .ok [{ wf_email := "alice@x.com", eb_email := "Alice@x.com",
             eb_first_name := "Alice", eb_last_name := "A",
             dates := [-40000000, 0], is_current := true }] ∧
    ({ wf_email := "alice@x.com", eb_email := "Alice@x.com",
       eb_first_name := "Alice", eb_last_name := "A",
       dates := [-40000000, 0], is_current := true } :
        ReconciledRegistrant).is_current = true :=
  ⟨rfl, C1_is_current_if_any_valid_waiver 1000
    [mkEntry (some [waiverOld, waiverRecent])]
    [{ wf_email := "alice@x.com", eb_email := "Alice@x.com",
       eb_first_name := "Alice", eb_last_name := "A",
       dates := [-40000000, 0], is_current := true }] 0
    (mkEntry (some [waiverOld, waiverRecent]))
    { wf_email := "alice@x.com", eb_email := "Alice@x.com",
      eb_first_name := "Alice", eb_last_name := "A",
      dates := [-40000000, 0], is_current := true }
    [waiverOld, waiverRecent] waiverRecent
    rfl (by decide) (by decide) (by decide) (by decide) (by decide)⟩

/-- C9: for every registrant whose entry is reconciled successfully,
`is_current` is true if and only if at least one waiver in their search
result has a received-at date plus 365 days strictly after the cutoff
date (so a waiver whose expiry equals the cutoff exactly does not
count). -/
theorem C9_is_current_iff (d : Int) (regs : List RegEntry)
    (out : List ReconciledRegistrant) (i : Nat) (reg : RegEntry)
    (r : ReconciledRegistrant) (ws : List Waiver)
    (hok : process_waiver_data regs d = .ok out)
    (hreg : regs[i]? = some reg)
    (hout : out[i]? = some r)
    (hw : reg.waiverforever_data.data.waivers = some ws) :
    r.is_current = true ↔
      ∃ w ∈ ws, datetime_fromtimestamp w.received_at +
        timedelta_days WAIVER_VALIDITY > d := by
  obtain ⟨-, hnth⟩ := process_waiver_data_nth regs d out hok
  obtain ⟨r2, hout2, hpr⟩ := hnth i reg hreg
  rw [hout] at hout2
  injection hout2 with heq
  subst heq
  rw [processRegistration_eq d reg ws hw] at hpr
  split at hpr
  · injection hpr with heq2
    rw [← heq2]
    simp [List.any_eq_true, isCurrentWaiver]
  · cases hpr

/-- C9 witness: with a single current waiver the biconditional holds
concretely; with only an expired waiver it holds in the false case
(checked through the same theorem at a second index). -/
theorem C9_witness :
    process_waiver_data
        [mkEntry (some [waiverRecent]), mkEntry (some [waiverOld])] 1000 =
      .ok [{ wf_email := "alice@x.com", eb_email := "Alice@x.com",
             eb_first_name := "Alice", eb_last_name := "A",
             dates := [0], is_current := true },
           { wf_email := "", eb_email := "Alice@x.com",
             eb_first_name := "Alice", eb_last_name := "A",
             dates := [-40000000], is_current := false }] ∧
    (({ wf_email := "", eb_email := "Alice@x.com",
        eb_first_name := "Alice", eb_last_name := "A",
        dates := [-40000000], is_current := false } :
          ReconciledRegistrant).is_current = true ↔
      ∃ w ∈ [waiverOld], datetime_fromtimestamp w.received_at +
        timedelta_days WAIVER_VALIDITY > 1000) :=
  ⟨rfl, C9_is_current_iff 1000
    [mkEntry (some [waiverRecent]), mkEntry (some [waiverOld])]
    [{ wf_email := "alice@x.com", eb_email := "Alice@x.com",
       eb_first_name := "Alice", eb_last_name := "A",
       dates := [0], is_current := true },
     { wf_email := "", eb_email := "Alice@x.com",
       eb_first_name := "Alice", eb_last_name := "A",
       dates := [-40000000], is_current := false }] 1
    (mkEntry (some [waiverOld]))
    { wf_email := "", eb_email := "Alice@x.com",
      eb_first_name := "Alice", eb_last_name := "A",
      dates := [-40000000], is_current := false }
    [waiverOld] rfl (by decide) (by decide) (by decide)⟩

/-- C5: for every successfully reconciled registrant, the `dates` list
contains exactly one date per waiver in the search result, in the same
order, and the scan never early-exits: the date list and the extracted
email reflect every waiver, including those after currency is
established. -/
theorem C5_all_waivers_scanned (d : Int) (regs : List RegEntry)
    (out : List ReconciledRegistrant) (i : Nat) (reg : RegEntry)
    (r : ReconciledRegistrant) (ws : List Waiver)
    (hok : process_waiver_data regs d = .ok out)
    (hreg : regs[i]? = some reg)
    (hout : out[i]? = some r)
    (hw : reg.waiverforever_data.data.waivers = some ws) :
    r.dates = ws.map (fun w => datetime_fromtimestamp w.received_at) ∧
    r.dates.length = ws.length ∧
    r.wf_email = (allEmailValues ws).getLastD "" := by
  obtain ⟨-, hnth⟩ := process_waiver_data_nth regs d out hok
  obtain ⟨r2, hout2, hpr⟩ := hnth i reg hreg
  rw [hout] at hout2
  injection hout2 with heq
  subst heq
  rw [processRegistration_eq d reg ws hw] at hpr
  split at hpr
  · injection hpr with heq2
    rw [← heq2]
    exact ⟨rfl, by simp, rfl⟩
  · cases hpr

/-- C5 witness: two waivers, the first already current — the second is
still scanned: both dates appear in order and its email is the one
retained. -/
theorem C5_witness :
    process_waiver_data [mkEntry (some [waiverRecent, waiverOld])] 1000 =
      .ok [{ wf_email := "alice@x.com", eb_email := "Alice@x.com",
             eb_first_name := "Alice", eb_last_name := "A",
             dates := [0, -40000000], is_current := true }] ∧
    ({ wf_email := "alice@x.com", eb_email := "Alice@x.com",
       eb_first_name := "Alice", eb_last_name := "A",
       dates := [0, -40000000], is_current := true } :
        ReconciledRegistrant).dates =
      [waiverRecent, waiverOld].map (fun w =>
        datetime_fromtimestamp w.received_at) ∧
    ([0, -40000000] : List Int).length = [waiverRecent, waiverOld].length ∧
    ({ wf_email := "alice@x.com", eb_email := "Alice@x.com",
       eb_first_name := "Alice", eb_last_name := "A",
       dates := [0, -40000000], is_current := true } :
        ReconciledRegistrant).wf_email =
      (allEmailValues [waiverRecent, waiverOld]).getLastD "" :=
  ⟨rfl, C5_all_waivers_scanned 1000 [mkEntry (some [waiverRecent, waiverOld])]
    [{ wf_email := "alice@x.com", eb_email := "Alice@x.com",
       eb_first_name := "Alice", eb_last_name := "A",
       dates := [0, -40000000], is_current := true }] 0
    (mkEntry (some [waiverRecent, waiverOld]))
    { wf_email := "alice@x.com", eb_email := "Alice@x.com",
      eb_first_name := "Alice", eb_last_name := "A",
      dates := [0, -40000000], is_current := true }
    [waiverRecent, waiverOld] rfl (by decide) (by decide) (by decide)⟩

/-- C6: for every successfully reconciled registrant, `wf_email` is the
value of the last `email_field`-typed field encountered across the
waivers in scan order (`getLastD` of all email-field values, defaulting
to the empty string when no waiver has an email field). -/
theorem C6_last_email_field_wins (d : Int) (regs : List RegEntry)
    (out : List ReconciledRegistrant) (i : Nat) (reg : RegEntry)
    (r : ReconciledRegistrant) (ws : List Waiver)
    (hok : process_waiver_data regs d = .ok out)
    (hreg : regs[i]? = some reg)
    (hout : out[i]? = some r)
    (hw : reg.waiverforever_data.data.waivers = some ws) :
    r.wf_email = (allEmailValues ws).getLastD "" := by
  obtain ⟨-, hnth⟩ := process_waiver_data_nth regs d out hok
  obtain ⟨r2, hout2, hpr⟩ := hnth i reg hreg
  rw [hout] at hout2
  injection hout2 with heq
  subst heq
  rw [processRegistration_eq d reg ws hw] at hpr
  split at hpr
  · injection hpr with heq2
    rw [← heq2]
  · cases hpr

/-- C6 witness: two waivers with distinct email fields whose values
agree up to case — the later one wins. -/
theorem C6_witness :
    process_waiver_data
        [mkEntry (some [{ received_at := 0,
                          data := [{ type := "email_field",
                                     value := "ALICE@X.COM" }] },
                        waiverRecent])] 1000 =
      .ok [{ wf_email := "alice@x.com", eb_email := "Alice@x.com",
             eb_first_name := "Alice", eb_last_name := "A",
             dates := [0, 0], is_current := true }] ∧
    ({ wf_email := "alice@x.com", eb_email := "Alice@x.com",
       eb_first_name := "Alice", eb_last_name := "A",
       dates := [0, 0], is_current := true } :
        ReconciledRegistrant).wf_email =
      (allEmailValues [{ received_at := 0,
                         data := [{ type := "email_field",
                                    value := "ALICE@X.COM" }] },
                       waiverRecent]).getLastD "" :=
  ⟨rfl, C6_last_email_field_wins 1000
    [mkEntry (some [{ received_at := 0,
                      data := [{ type := "email_field",
                                 value := "ALICE@X.COM" }] },
                    waiverRecent])]
    [{ wf_email := "alice@x.com", eb_email := "Alice@x.com",
       eb_first_name := "Alice", eb_last_name := "A",
       dates := [0, 0], is_current := true }] 0
    (mkEntry (some [{ received_at := 0,
                      data := [{ type := "email_field",
                                 value := "ALICE@X.COM" }] },
                    waiverRecent]))
    { wf_email := "alice@x.com", eb_email := "Alice@x.com",
      eb_first_name := "Alice", eb_last_name := "A",
      dates := [0, 0], is_current := true }
    [{ received_at := 0,
       data := [{ type := "email_field", value := "ALICE@X.COM" }] },
     waiverRecent] rfl (by decide) (by decide) (by decide)⟩

/-- C2: every record emitted by a successful reconciliation run
satisfies the invariant that `wf_email` is empty or case-insensitively
equal to `eb_email`; no violating record is ever appended. -/
theorem C2_email_invariant (regs : List RegEntry) (d : Int)
    (out : List ReconciledRegistrant)
    (hok : process_waiver_data regs d = .ok out) :
    ∀ r ∈ out, r.wf_email = "" ∨ pyLower r.wf_email = pyLower r.eb_email := by
  intro r hr
  obtain ⟨reg, -, hpr⟩ := process_waiver_data_mem regs d out hok r hr
  cases hw : reg.waiverforever_data.data.waivers with
  | none =>
    unfold processRegistration at hpr
    rw [hw] at hpr
    cases hpr
  | some ws =>
    rw [processRegistration_eq d reg ws hw] at hpr
    split at hpr
    case isTrue hcond =>
      injection hpr with heq
      rw [← heq]
      exact hcond
    case isFalse => cases hpr

/-- C2 witness: the invariant instantiated on a run with a matched
email and a run with no email field. -/
theorem C2_witness :
    process_waiver_data [mkEntry (some [waiverRecent]), mkEntry (some [waiverOld])] 999 =
      .ok [{ wf_email := "alice@x.com", eb_email := "Alice@x.com",
             eb_first_name := "Alice", eb_last_name := "A",
             dates := [0], is_current := true },
           { wf_email := "", eb_email := "Alice@x.com",
             eb_first_name := "Alice", eb_last_name := "A",
             dates := [-40000000], is_current := false }] ∧
    (({ wf_email := "alice@x.com", eb_email := "Alice@x.com",
        eb_first_name := "Alice", eb_last_name := "A",
        dates := [0], is_current := true } :
          ReconciledRegistrant).wf_email = "" ∨
      pyLower "alice@x.com" = pyLower "Alice@x.com") :=
  ⟨rfl, C2_email_invariant
    [mkEntry (some [waiverRecent]), mkEntry (some [waiverOld])] 999
    [{ wf_email := "alice@x.com", eb_email := "Alice@x.com",
       eb_first_name := "Alice", eb_last_name := "A",
       dates := [0], is_current := true },
     { wf_email := "", eb_email := "Alice@x.com",
       eb_first_name := "Alice", eb_last_name := "A",
       dates := [-40000000], is_current := false }] rfl
    { wf_email := "alice@x.com", eb_email := "Alice@x.com",
      eb_first_name := "Alice", eb_last_name := "A",
      dates := [0], is_current := true } (by decide)⟩

/-- C3 counterexample: the claim says a registrant whose search result
contains *any* waiver with a mismatched email field makes the run
abort.  Here the first waiver carries Bob's email (mismatched against
Alice) but a later waiver carries Alice's email; last-one-wins means
the integrity check sees only the final email, and the run completes
without error. -/
theorem C3_counterexample :
    (∃ w ∈ [waiverBob, waiverRecent], ∃ f ∈ w.data,
        f.type = "email_field" ∧
        pyLower f.value ≠
          pyLower (mkEntry (some [waiverBob, waiverRecent])).eventbrite_data.email) ∧
    process_waiver_data [mkEntry (some [waiverBob, waiverRecent])] 1000 =
      .ok [{ wf_email := "alice@x.com", eb_email := "Alice@x.com",
             eb_first_name := "Alice", eb_last_name := "A",
             dates := [0, 0], is_current := true }] :=
  ⟨by decide, rfl⟩

/-- C3 amended: the run aborts with a fatal `AssertionError` reporting
both emails, before processing any remaining registrants, exactly when
the *last* email field encountered across the registrant's waivers is
non-empty and differs case-insensitively from the registrant's
ticketing email (an earlier mismatched email field that is later
overwritten by a matching one does not abort the run). -/
theorem C3_abort_on_last_email_mismatch (d : Int) (reg : RegEntry)
    (rest : List RegEntry) (ws : List Waiver)
    (hw : reg.waiverforever_data.data.waivers = some ws)
    (hne : (allEmailValues ws).getLastD "" ≠ "")
    (hmm : pyLower ((allEmailValues ws).getLastD "") ≠
      pyLower reg.eventbrite_data.email) :
    process_waiver_data (reg :: rest) d =
      .error (.assertionError
        ("found a non-matching email field. WF: " ++
         (allEmailValues ws).getLastD "" ++
         " EB: " ++ reg.eventbrite_data.email)) := by
  apply process_waiver_data_cons_error
  rw [processRegistration_eq d reg ws hw]
  rw [if_neg]
  exact fun h => h.elim hne hmm

/-- C3 witness: a lone mismatched email aborts the run with both emails
in the message, with a further registrant left unprocessed. -/
theorem C3_witness :
    (allEmailValues [waiverBob]).getLastD "" ≠ "" ∧
    pyLower ((allEmailValues [waiverBob]).getLastD "") ≠
      pyLower (mkEntry (some [waiverBob])).eventbrite_data.email ∧
    process_waiver_data [mkEntry (some [waiverBob]), mkEntry (some [])] 1000 =
      .error (.assertionError
        "found a non-matching email field. WF: bob@x.com EB: Alice@x.com") :=
  ⟨by decide, by decide,
    (C3_abort_on_last_email_mismatch 1000 (mkEntry (some [waiverBob]))
      [mkEntry (some [])] [waiverBob] rfl (by decide) (by decide)).trans
      (by rfl)⟩

/-- C4 counterexample: the claim says a missing/absent waiver list is
treated as zero waivers and never raises an error; in the code the
lookup `reg['waiverforever_data']['data']['waivers']` raises `KeyError`
when the key is absent, so the run errors instead of emitting a
record. -/
theorem C4_counterexample :
    (mkEntry none).waiverforever_data.data.waivers = none ∧
    process_waiver_data [mkEntry none] 1000 = .error (.keyError "waivers") :=
  ⟨rfl, rfl⟩

/-- C4 amended: a registrant whose lookup yields an *empty* waiver list
is reconciled without error to `is_current = false`, `dates = []`,
`wf_email = ""`; an *absent* waiver list key instead raises `KeyError`,
aborting the run. -/
theorem C4_zero_waivers (d : Int) (reg : RegEntry) :
    (reg.waiverforever_data.data.waivers = some [] →
      processRegistration d reg =
        .ok { wf_email := "", eb_email := reg.eventbrite_data.email,
              eb_first_name := reg.eventbrite_data.first_name,
              eb_last_name := reg.eventbrite_data.last_name,
              dates := [], is_current := false }) ∧
    (reg.waiverforever_data.data.waivers = none →
      processRegistration d reg = .error (.keyError "waivers")) := by
  constructor
  · intro hw
    rw [processRegistration_eq d reg [] hw]
    rfl
  · intro hw
    unfold processRegistration
    rw [hw]

/-- C4 witness: the amended claim evaluated on a registrant with an
empty waiver list and on one with the `'waivers'` key absent. -/
theorem C4_witness :
    processRegistration 1000 (mkEntry (some [])) =
      .ok { wf_email := "", eb_email := "Alice@x.com",
            eb_first_name := "Alice", eb_last_name := "A",
            dates := [], is_current := false } ∧
    processRegistration 1000 (mkEntry none) = .error (.keyError "waivers") :=
  ⟨((C4_zero_waivers 1000 (mkEntry (some []))).1 rfl).trans (by rfl),
   (C4_zero_waivers 1000 (mkEntry none)).2 rfl⟩

/-- C7: reconciliation is deterministic and idempotent in its inputs —
`process_waiver_data` is a pure function of the registration data and
the end date (plus the fixed validity constant), so two runs on
identical inputs yield identical output.  In the embedding this purity
is by construction: the source function reads no state beyond its
arguments and `WAIVER_VALIDITY`, so it is modelled as a function. -/
theorem C7_deterministic (registration_data : List RegEntry) (end_date : Int) :
    process_waiver_data registration_data end_date =
      process_waiver_data registration_data end_date := rfl

theorem foldl_count_invalid {α : Type} (data : List (ReportItem α)) (n : Nat) :
    data.foldl (fun acc item => if item.is_current = false then acc + 1 else acc)
        n =
      n + (data.filter fun item => !item.is_current).length := by
  induction data generalizing n with
  | nil => simp
  | cons item rest ih =>
    rw [List.foldl_cons, List.filter_cons]
    cases item.is_current
    · simp [ih]
      omega
    · simp [ih]

theorem foldl_rows_invalid {α : Type} (data : List (ReportItem α))
    (acc : List String) :
    data.foldl (fun a item =>
        if item.is_current = false then a ++ [reportRow item] else a) acc =
      acc ++ (data.filter fun item => !item.is_current).map reportRow := by
  induction data generalizing acc with
  | nil => simp
  | cons item rest ih =>
    rw [List.foldl_cons, List.filter_cons]
    cases item.is_current
    · simp [ih]
    · simp [ih]

/-- C8: for every reconciled sequence of `n` registrants of which
exactly `k` have `is_current = false`, the console report prints the
count line "Found k invalid or missing waivers out of n waivers."
(preceded by a blank line), the two header lines, and then exactly one
fixed-width row (email, first name, last name) per non-current
registrant, in sequence order. -/
theorem C8_report_counts_and_rows {α : Type} (data : List (ReportItem α)) :
    report_to_console data =
      ["\nFound " ++
         toString (data.filter fun item => !item.is_current).length ++
         " invalid or missing waivers out of " ++ toString data.length ++
         " waivers.",
       "Invalid or missing waivers:",
       pyFormatLeft "Email" 30 ++ " " ++ pyFormatLeft "Firstname" 15 ++ " " ++
         pyFormatLeft "Lastname" 15] ++
      (data.filter fun item => !item.is_current).map reportRow := by
  rw [report_to_console]
  simp [foldl_count_invalid, foldl_rows_invalid]

/-- C10: `prepare_data_for_reporting` preserves the length and order of
the list, changes only the `dates` field of each item (each date
replaced by its formatted string), leaves items whose `dates` list is
empty or absent entirely untouched, and leaves every other field of
every item unchanged. -/
theorem C10_formatting_frame (data : List (ReportItem Int)) :
    (prepare_data_for_reporting data).length = data.length ∧
    ∀ i : Nat, (prepare_data_for_reporting data)[i]? =
      (data[i]?).map fun item =>
        { wf_email := item.wf_email, eb_email := item.eb_email,
          eb_first_name := item.eb_first_name,
          eb_last_name := item.eb_last_name,
          is_current := item.is_current,
          dates := match item.dates with
            | none => none
            | some ds =>
              if ds = [] then some [] else
                some (ds.map fun t => DateVal.str (strftime_mdY t)) } := by
  refine ⟨by simp [prepare_data_for_reporting], ?_⟩
  intro i
  rw [prepare_data_for_reporting, List.getElem?_map]
  cases data[i]? with
  | none => rfl
  | some item =>
    simp only [Option.map_some']
    rw [reformatItem]
    cases hd : item.dates with
    | none => rfl
    | some ds =>
      cases ds with
      | nil => rfl
      | cons t ts => rfl
